import Mathlib

/-!
# Verification of the DTR attendance-tracking engine

A shallow embedding of the core logic of `src/main.py` (a daily-time-record
bot): wall-clock time parsing and formatting, daily-record reconstruction
from the append-only event log, sequence validation, hours arithmetic, the
clock-event transitions (`am_in`, `am_out`, `pm_in`, `pm_out`, `half_day`,
`manual_entry`) and the reminder pass.

Modelling conventions:
* A wall-clock time is the number of seconds since midnight of the (single,
  shared) calendar day; the Python code builds naive `datetime`s on today's
  date, so differences of two such values are differences of seconds.
* Python strings are Lean `String`s; Python string truthiness (`if s:`) is
  the test `s ≠ ""`.
* Python floats are modelled as exact rationals (`Rat`).  `round(x, 2)` is
  modelled as `round (x * 100) / 100`; Python rounds halves to even while
  Mathlib's `round` rounds halves up, but at the whole-minute granularity
  produced by every formatter of the program a halfway case cannot arise.
* The spreadsheet is an append-only list of rows; `sheet.append_row` either
  appends one row and returns or fails without appending, and the success of
  each attempted append is supplied as an explicit `Bool` oracle.
* A Python exception that no `try/except` catches is modelled with `Except`:
  `.error msg` is the uncaught exception (with its message), `.ok v` a normal
  return.  In particular, Python refuses to subtract a naive `datetime` from
  a timezone-aware one (`TypeError`), which matters to the reminder pass.
-/

namespace DTR

/-! ## Configuration constants (src/main.py lines 21-24, 1100) -/

/-- `AM_IN_CUTOFF = (10, 0)` — late threshold (hour, minute). -/
def AM_IN_CUTOFF : Nat × Nat := (10, 0)

/-- `REQUIRED_HOURS = 8` — required work hours per day. -/
def REQUIRED_HOURS : Nat := 8

/-- `MORNING_PERSON_CUTOFF = (7, 44)` — anyone before this is a morning person. -/
def MORNING_PERSON_CUTOFF : Nat × Nat := (7, 44)

/-- `REMINDER_THRESHOLD_MINUTES = 5` — minutes before 8 hours. -/
def REMINDER_THRESHOLD_MINUTES : Nat := 5

/-! ## Time parsing (src/main.py `parse_time_from_string`, lines 178-206)

The Python code tries `datetime.strptime` with the formats
`"%I:%M:%S %p"`, `"%H:%M:%S"`, `"%I:%M %p"` in order, first match wins.
CPython's `_strptime` compiles each format to a regex that must match the
whole (stripped) string:
* `%I` matches `1[0-2]|0[1-9]|[1-9]` (a 1-2 digit hour, 1-12);
* `%H` matches `2[0-3]|[0-1]\d|\d` (a 1-2 digit hour, 0-23);
* `%M` matches `[0-5]\d|\d` (1-2 digit minute, 0-59);
* `%S` matches `6[0-1]|[0-5]\d|\d`; the leap-second values 60-61 then make
  the `datetime` constructor raise `ValueError`, which the caller treats
  exactly like a format mismatch (`continue`), so they are folded into the
  failure case here;
* a literal space matches one or more whitespace characters; `%p` matches
  `AM`/`PM` case-insensitively.
Since every numeric field is followed by a non-digit (or the end), each
field consumes exactly the maximal digit run at its position. -/

/-- Numeric value of a list of decimal digit characters. -/
def natOfDigits (ds : List Char) : Nat :=
  ds.foldl (fun n c => 10 * n + (c.toNat - 48)) 0

/-- Strip leading and trailing whitespace (Python `str.strip()`). -/
def trimL (cs : List Char) : List Char :=
  ((cs.dropWhile Char.isWhitespace).reverse.dropWhile Char.isWhitespace).reverse

/-- Consume the maximal digit run, subject to the given length/value
constraint (`ok run-length value`). -/
def parseNum (ok : Nat → Nat → Bool) (cs : List Char) : Option (Nat × List Char) :=
  let ds := cs.takeWhile Char.isDigit
  let rest := cs.dropWhile Char.isDigit
  if ok ds.length (natOfDigits ds) then some (natOfDigits ds, rest) else none

/-- The `%I` directive: 1-2 digits, value 1-12 (`1[0-2]|0[1-9]|[1-9]`). -/
def parseHour12 (cs : List Char) : Option (Nat × List Char) :=
  parseNum (fun len v => decide ((len = 1 ∨ len = 2) ∧ 1 ≤ v ∧ v ≤ 12 ∧ (len = 1 → v ≤ 9))) cs

/-- The `%H` directive: 1-2 digits, value 0-23 (`2[0-3]|[0-1]\d|\d`). -/
def parseHour24 (cs : List Char) : Option (Nat × List Char) :=
  parseNum (fun len v => decide ((len = 1 ∨ len = 2) ∧ v ≤ 23 ∧ (len = 1 → v ≤ 9))) cs

/-- The `%M` directive (and `%S`, see above): 1-2 digits, value 0-59. -/
def parseMin (cs : List Char) : Option (Nat × List Char) :=
  parseNum (fun len v => decide ((len = 1 ∨ len = 2) ∧ v ≤ 59 ∧ (len = 1 → v ≤ 9))) cs

/-- Consume a literal `:`. -/
def parseColon : List Char → Option (List Char)
  | ':' :: rest => some rest
  | _ => none

/-- Consume one or more whitespace characters (a literal blank in an
`strptime` format matches `\s+`). -/
def parseSpaces : List Char → Option (List Char)
  | c :: rest => if c.isWhitespace then some (rest.dropWhile Char.isWhitespace) else none
  | [] => none

/-- Consume `AM`/`PM` case-insensitively; `true` means PM. -/
def parseAmPm : List Char → Option (Bool × List Char)
  | a :: b :: rest =>
    if (a = 'A' ∨ a = 'a') ∧ (b = 'M' ∨ b = 'm') then some (false, rest)
    else if (a = 'P' ∨ a = 'p') ∧ (b = 'M' ∨ b = 'm') then some (true, rest)
    else none
  | _ => none

/-- Convert a 12-hour value plus AM/PM flag to a 24-hour value, as
`_strptime` does: AM maps 12 to 0, PM maps h≠12 to h+12. -/
def to24h (h12 : Nat) (pm : Bool) : Nat :=
  if pm then h12 % 12 + 12 else h12 % 12

/-- Format `"%I:%M:%S %p"` as seconds since midnight. -/
def parseFmtSheet (cs : List Char) : Option Nat := do
  let (h, cs) ← parseHour12 cs
  let cs ← parseColon cs
  let (m, cs) ← parseMin cs
  let cs ← parseColon cs
  let (s, cs) ← parseMin cs
  let cs ← parseSpaces cs
  let (pm, cs) ← parseAmPm cs
  if cs = [] then some (to24h h pm * 3600 + m * 60 + s) else none

/-- Format `"%H:%M:%S"` as seconds since midnight. -/
def parseFmt24 (cs : List Char) : Option Nat := do
  let (h, cs) ← parseHour24 cs
  let cs ← parseColon cs
  let (m, cs) ← parseMin cs
  let cs ← parseColon cs
  let (s, cs) ← parseMin cs
  if cs = [] then some (h * 3600 + m * 60 + s) else none

/-- Format `"%I:%M %p"` as seconds since midnight. -/
def parseFmtDiscord (cs : List Char) : Option Nat := do
  let (h, cs) ← parseHour12 cs
  let cs ← parseColon cs
  let (m, cs) ← parseMin cs
  let cs ← parseSpaces cs
  let (pm, cs) ← parseAmPm cs
  if cs = [] then some (to24h h pm * 3600 + m * 60) else none

/-- `parse_time_from_string` (lines 178-206): returns the parsed time of
day in seconds since midnight, or `none` if the string is empty or matches
none of the three accepted formats. -/
def parse_time_from_string (time_string : String) : Option Nat :=
  if time_string = "" then none
  else
    let cs := trimL time_string.data
    match parseFmtSheet cs with
    | some t => some t
    | none =>
      match parseFmt24 cs with
      | some t => some t
      | none => parseFmtDiscord cs

/-! ## Time formatting (src/main.py lines 115-131, 610-612, 319-323) -/

/-- Two-digit zero-padded minute (Python `f"{m:02d}"`). -/
def pad2 (n : Nat) : String :=
  if n < 10 then "0" ++ toString n else toString n

/-- The shared 12-hour display computation: `hour_12 = hour % 12`, mapped to
`12` when zero, with `"AM"` for hours before noon. -/
def hour12Of (hour : Nat) : Nat :=
  if hour % 12 = 0 then 12 else hour % 12

/-- `"AM"`/`"PM"` suffix: `"AM" if hour < 12 else "PM"`. -/
def amPmOf (hour : Nat) : String :=
  if hour < 12 then "AM" else "PM"

/-- The Discord display form `H:MM AM/PM` of a wall-clock (hour, minute)
(lines 124-131 and the inline copies at lines 319-323, 327-332). -/
def fmtDiscord (hour minute : Nat) : String :=
  toString (hour12Of hour) ++ ":" ++ pad2 minute ++ " " ++ amPmOf hour

/-- The sheet store form `H:MM:00 AM/PM` — seconds always zeroed
(lines 115-122 and the inline copy at lines 610-612). -/
def fmtSheet (hour minute : Nat) : String :=
  toString (hour12Of hour) ++ ":" ++ pad2 minute ++ ":00 " ++ amPmOf hour

/-- `time_for_sheets()` (lines 115-122), parametrised by the current
instant's hour and minute. -/
def time_for_sheets (hour minute : Nat) : String := fmtSheet hour minute

/-- `time_for_discord()` (lines 124-131), parametrised by the current
instant's hour and minute. -/
def time_for_discord (hour minute : Nat) : String := fmtDiscord hour minute

/-- `strip_leading_apostrophe` (lines 89-93). -/
def strip_leading_apostrophe (s : String) : String :=
  match s.data with
  | c :: rest => if c = Char.ofNat 39 then String.mk rest else s
  | [] => s

/-! ## The daily record (src/main.py `get_full_record`, lines 298-345)

A `DailyRecord` is the dictionary `{"AM_IN": ..., "AM_OUT": ..., "PM_IN":
..., "PM_OUT": ...}` built by `get_full_record`; an empty string means the
slot is unset (Python falsiness). -/

structure DTRRecord where
  AM_IN : String
  AM_OUT : String
  PM_IN : String
  PM_OUT : String
  deriving DecidableEq

/-- One of the four named slot positions. -/
inductive Slot where
  | amIn
  | amOut
  | pmIn
  | pmOut
  deriving DecidableEq

/-- Read a slot of a record. -/
def slotGet (r : DTRRecord) : Slot → String
  | .amIn => r.AM_IN
  | .amOut => r.AM_OUT
  | .pmIn => r.PM_IN
  | .pmOut => r.PM_OUT

/-- Overwrite a slot of a record. -/
def slotSet (r : DTRRecord) : Slot → String → DTRRecord
  | .amIn, v => { r with AM_IN := v }
  | .amOut, v => { r with AM_OUT := v }
  | .pmIn, v => { r with PM_IN := v }
  | .pmOut, v => { r with PM_OUT := v }

/-- The `Time Clock` column label of each slot (the `valid_types` mapping of
`manual_entry`, line 594). -/
def slotLabel : Slot → String
  | .amIn => "AM - Time In"
  | .amOut => "AM - Time Out"
  | .pmIn => "PM - Time In"
  | .pmOut => "PM - Time Out"

/-! ## Sequence validation (src/main.py `validate_time_sequence`, lines 208-234) -/

/-- A checked ordering pair is violated when both sides parsed and the later
value is `<=` the earlier one; a side that did not parse (missing key in the
`times` dict) makes the pair pass. -/
def pairViolation : Option Nat → Option Nat → Bool
  | some earlier, some later => decide (later ≤ earlier)
  | _, _ => false

/-- `validate_time_sequence` (lines 208-234): each slot's value is parsed
(an empty or unparseable value — in particular `"N/A"` — is simply absent
from the comparison), then the three ordered pairs are checked in turn.
Returns `(true, none)` on success and `(false, some msg)` otherwise. -/
def validate_time_sequence (record : DTRRecord) : Bool × Option String :=
  let tAI := parse_time_from_string record.AM_IN
  let tAO := parse_time_from_string record.AM_OUT
  let tPI := parse_time_from_string record.PM_IN
  let tPO := parse_time_from_string record.PM_OUT
  if pairViolation tAI tAO then (false, some "AM OUT must be after AM IN.")
  else if pairViolation tAO tPI then (false, some "PM IN must be after AM OUT.")
  else if pairViolation tPI tPO then (false, some "PM OUT must be after PM IN.")
  else (true, none)

/-! ## Hours calculation (src/main.py lines 237-270) -/

/-- Python's `round(x)` to an integer, modelled as round-half-up via the
computable `Rat.floor`.  (Python rounds exact halves to even; no such case
is reachable at whole-minute granularity, see the module header.) -/
def pyRound (x : Rat) : Int :=
  (x + 1 / 2).floor

/-- Python's `round(x, 2)`: round to two decimal places. -/
def round2 (x : Rat) : Rat :=
  (pyRound (x * 100) : Int) / 100

/-- Python's `int(x)`: truncation toward zero. -/
def pyInt (x : Rat) : Int :=
  if 0 ≤ x then x.floor else x.ceil

/-- `calculate_hours_worked` (lines 237-262): parse the four slots, fail if
any is missing/unparseable, compute both spans in hours, fail if either is
negative, and return the total rounded to two decimals. -/
def calculate_hours_worked (record : DTRRecord) : Option Rat :=
  match parse_time_from_string record.AM_IN, parse_time_from_string record.AM_OUT,
        parse_time_from_string record.PM_IN, parse_time_from_string record.PM_OUT with
  | some am_in, some am_out, some pm_in, some pm_out =>
    let morning_hours : Rat := (((am_out : Int) - (am_in : Int) : Int) : Rat) / 3600
    let afternoon_hours : Rat := (((pm_out : Int) - (pm_in : Int) : Int) : Rat) / 3600
    if morning_hours < 0 ∨ afternoon_hours < 0 then none
    else some (round2 (morning_hours + afternoon_hours))
  | _, _, _, _ => none

/-- `format_hours_display` (lines 264-270): decimal hours as `"{h}h {m}m"`,
with `h = int(hours)` and `m = int(round((hours - h) * 60))`. -/
def format_hours_display (hours : Rat) : String :=
  toString (pyInt hours) ++ "h "
    ++ toString (pyRound ((hours - (pyInt hours : Rat)) * 60)) ++ "m"

/-! ## Record reconstruction (src/main.py `get_full_record`, lines 298-345)

The engine reads back, for one user and one day, the ordered list of sheet
rows (columns `Time Clock` and `Input Time`; the `Timestamp`/`Name` columns
only select the list and are dropped here), and folds them into a
`DTRRecord`.  Slot matching is by Python substring test
(`"AM - Time In" in time_clock`), in the `elif` order of the source. -/

/-- One appended sheet row, restricted to the columns the fold reads. -/
structure SheetRow where
  timeClock : String
  inputTime : String
  deriving DecidableEq

/-- `pat` occurs as a leading run of `hay`. -/
def startsWithL : List Char → List Char → Bool
  | [], _ => true
  | _ :: _, [] => false
  | p :: ps, h :: hs => p == h && startsWithL ps hs

/-- `pat` occurs somewhere inside `hay` (helper for the Python `in` test). -/
def hasSubAux (pat : List Char) : List Char → Bool
  | [] => startsWithL pat []
  | h :: t => startsWithL pat (h :: t) || hasSubAux pat t

/-- Python's substring containment `pat in hay`. -/
def hasSub (hay pat : String) : Bool :=
  hasSubAux pat.data hay.data

/-- The sheet-to-Discord time conversion of `get_full_record` (lines
313-334): try `strptime "%I:%M:%S %p"`, then `strptime "%I:%M %p"`, and
reformat as `H:MM AM/PM`; on both failing, pass the raw value through; an
empty value stays empty. -/
def convertInputTime (input_time_sheet : String) : String :=
  if input_time_sheet = "" then ""
  else
    match parseFmtSheet (trimL input_time_sheet.data) with
    | some t => fmtDiscord (t / 3600) (t % 3600 / 60)
    | none =>
      match parseFmtDiscord (trimL input_time_sheet.data) with
      | some t => fmtDiscord (t / 3600) (t % 3600 / 60)
      | none => input_time_sheet

/-- Which slot a row's `Time Clock` label matches, in the `elif` order of
lines 336-343 (first match wins). -/
def classifyRow (row : SheetRow) : Option Slot :=
  if hasSub row.timeClock "AM - Time In" then some .amIn
  else if hasSub row.timeClock "AM - Time Out" then some .amOut
  else if hasSub row.timeClock "PM - Time In" then some .pmIn
  else if hasSub row.timeClock "PM - Time Out" then some .pmOut
  else none

/-- One step of the reconstruction fold: overwrite the matched slot with
the converted input time (lines 308-343). -/
def applyRow (r : DTRRecord) (row : SheetRow) : DTRRecord :=
  match classifyRow row with
  | some s => slotSet r s (convertInputTime row.inputTime)
  | none => r

/-- `get_full_record` (lines 298-345): start from all-empty slots and fold
the day's rows in log order. -/
def get_full_record (rows : List SheetRow) : DTRRecord :=
  rows.foldl applyRow { AM_IN := "", AM_OUT := "", PM_IN := "", PM_OUT := "" }

/-- The specification's reading of the invariant: the *last* matching event
for a slot, in log order (`none` when no event matches the slot). -/
def lastMatchingRow (s : Slot) : List SheetRow → Option SheetRow
  | [] => none
  | row :: rest =>
    match lastMatchingRow s rest with
    | some e => some e
    | none => if classifyRow row = some s then some row else none

/-! ## Clock-event transitions (src/main.py lines 802-988, 581-733)

Each command reconstructs the current record, checks its preconditions,
possibly validates the proposed record, and appends row(s) to the sheet.
A transition is modelled as a function of the current reconstructed record
(plus the time string that `time_for_sheets()` produced for the current
instant, where the source uses one) returning the list of rows actually
persisted together with the outcome.  `sheet.append_row` appends one row
atomically or raises without appending; the success of each attempted
append is an explicit `Bool` argument (the source's `try/except` around the
append maps success to continuation and failure to an error message). -/

/-- Outcome of one command: refused before any append (`rejected`), store
failure (`storeFailed`), or success (`completed`), the latter carrying the
advisory validation warning when one was issued. -/
inductive StepOutcome where
  | rejected (msg : String)
  | storeFailed (msg : String)
  | completed (warning : Option String)
  deriving DecidableEq

/-- `am_in` (lines 802-842), up to the append; the response-flavor
classification is modelled separately by `am_in_flavor`. -/
def am_in_step (record : DTRRecord) (time_sheet : String) (appendOk : Bool) :
    List SheetRow × StepOutcome :=
  if record.AM_IN ≠ "" then ([], .rejected "You already clocked AM IN today.")
  else if appendOk then
    ([⟨"AM - Time In", strip_leading_apostrophe time_sheet⟩], .completed none)
  else ([], .storeFailed "Failed to record AM IN. Please try again or contact admin.")

/-- `am_out` (lines 844-887): preconditions, then *blocking* validation of
the proposed record, then the append. -/
def am_out_step (record : DTRRecord) (time_sheet : String) (appendOk : Bool) :
    List SheetRow × StepOutcome :=
  if record.AM_IN = "" then ([], .rejected "You must clock AM IN first.")
  else if record.AM_OUT ≠ "" then ([], .rejected "You already clocked AM OUT today.")
  else if record.PM_OUT ≠ "" then
    ([], .rejected "Your work day is already complete. You cannot modify times after PM OUT.")
  else
    match validate_time_sequence { record with AM_OUT := time_sheet } with
    | (false, msg) => ([], .rejected (msg.getD ""))
    | (true, _) =>
      if appendOk then
        ([⟨"AM - Time Out", strip_leading_apostrophe time_sheet⟩], .completed none)
      else ([], .storeFailed "Failed to record AM OUT. Please try again or contact admin.")

/-- `pm_in` (lines 889-931): preconditions, then *blocking* validation of
the proposed record, then the append. -/
def pm_in_step (record : DTRRecord) (time_sheet : String) (appendOk : Bool) :
    List SheetRow × StepOutcome :=
  if record.AM_OUT = "" then ([], .rejected "You must clock AM OUT first.")
  else if record.PM_IN ≠ "" then ([], .rejected "You already clocked PM IN today.")
  else if record.PM_OUT ≠ "" then
    ([], .rejected "Your work day is already complete. You cannot modify times after PM OUT.")
  else
    match validate_time_sequence { record with PM_IN := time_sheet } with
    | (false, msg) => ([], .rejected (msg.getD ""))
    | (true, _) =>
      if appendOk then
        ([⟨"PM - Time In", strip_leading_apostrophe time_sheet⟩], .completed none)
      else ([], .storeFailed "Failed to record PM IN. Please try again or contact admin.")

/-- `pm_out` (lines 933-968), up to the append: preconditions, then
*advisory* validation — a failure only yields a warning (sent before the
append in the source) and the append still happens. -/
def pm_out_step (record : DTRRecord) (time_sheet : String) (appendOk : Bool) :
    List SheetRow × StepOutcome :=
  if record.PM_IN = "" then ([], .rejected "You must clock PM IN first.")
  else if record.PM_OUT ≠ "" then
    ([], .rejected "Your work day is already complete. You cannot clock out again.")
  else
    let warning :=
      match validate_time_sequence { record with PM_OUT := time_sheet } with
      | (false, msg) => some ("Time validation warning: " ++ msg.getD "")
      | (true, _) => none
    if appendOk then
      ([⟨"PM - Time Out", strip_leading_apostrophe time_sheet⟩], .completed warning)
    else ([], .storeFailed "Failed to record PM OUT. Please try again or contact admin.")

/-- The argument of `!half_day` after the `half.lower()` membership check
(lines 656-662). -/
inductive Half where
  | morning
  | afternoon
  deriving DecidableEq

/-- `half_day` (lines 645-733): two separate `sheet.append_row` calls for
the two `"N/A"` sentinel events inside one `try` block — `ok1`/`ok2` are
the outcomes of the first and second append attempt (the second is not
attempted if the first raises). -/
def half_day_step (record : DTRRecord) (half : Half) (ok1 ok2 : Bool) :
    List SheetRow × StepOutcome :=
  match half with
  | .morning =>
    if record.AM_IN = "" ∨ record.AM_OUT = "" then
      ([], .rejected "You must clock **AM IN** and **AM OUT** first.")
    else if record.PM_IN ≠ "" ∨ record.PM_OUT ≠ "" then
      ([], .rejected "PM entries already exist. Cannot mark as morning half-day.")
    else if ok1 = false then ([], .storeFailed "Failed to record half-day. Contact an admin.")
    else if ok2 = false then
      ([⟨"PM - Time In", "N/A"⟩], .storeFailed "Failed to record half-day. Contact an admin.")
    else ([⟨"PM - Time In", "N/A"⟩, ⟨"PM - Time Out", "N/A"⟩], .completed none)
  | .afternoon =>
    if record.AM_IN ≠ "" ∨ record.AM_OUT ≠ "" then
      ([], .rejected "AM entries already exist. Cannot mark as afternoon half-day.")
    else if record.PM_IN ≠ "" ∨ record.PM_OUT ≠ "" then
      ([], .rejected "PM entries already exist.")
    else if ok1 = false then ([], .storeFailed "Failed to record half-day. Contact an admin.")
    else if ok2 = false then
      ([⟨"AM - Time In", "N/A"⟩], .storeFailed "Failed to record half-day. Contact an admin.")
    else ([⟨"AM - Time In", "N/A"⟩, ⟨"AM - Time Out", "N/A"⟩], .completed none)

/-- `manual_entry` (lines 581-642), after the admin/roster checks: parse the
given time (reject on failure), rebuild the sheet-form string with zeroed
seconds, validate the proposed record in *advisory* mode (warning only),
then append. -/
def manual_entry_step (record : DTRRecord) (slot : Slot) (time_value : String)
    (appendOk : Bool) : List SheetRow × StepOutcome :=
  match parse_time_from_string time_value with
  | none =>
    ([], .rejected "Invalid time format. Use: `H:MM AM/PM`\nExamples: `8:30 AM`, `12:00 PM`, `5:45 PM`")
  | some t =>
    let time_sheet := fmtSheet (t / 3600) (t % 3600 / 60)
    let warning :=
      match validate_time_sequence (slotSet record slot time_sheet) with
      | (false, msg) =>
        some ("Time Validation Warning: " ++ msg.getD "" ++ "\nYou may still proceed.")
      | (true, _) => none
    if appendOk then
      ([⟨slotLabel slot, strip_leading_apostrophe time_sheet⟩], .completed warning)
    else ([], .storeFailed "Failed to add entry. Please try again or contact support.")

/-! ## Completion summaries (src/main.py lines 970-988 and 1000-1022)

`pm_out` and `status` append an hours section to the record message; the
Python guard `if hours_worked:` is false both for `None` and for `0.0`. -/

/-- The hours block shared verbatim by `pm_out` (lines 976-984) and
`status` (lines 1012-1020). -/
def hours_block (h : Rat) : String :=
  "\n\n**Total Hours Worked: " ++ format_hours_display h ++ "**"
    ++ (if h ≥ (REQUIRED_HOURS : Rat) then
          "\n**Completed " ++ toString REQUIRED_HOURS ++ "-hour requirement!**"
        else
          "\n**Undertime: " ++ format_hours_display ((REQUIRED_HOURS : Rat) - h) ++ "**")

/-- The part of the `pm_out` reply appended after the record message
(lines 973-986).  `if hours_worked:` treats `None` and `0.0` alike. -/
def pm_out_summary (record : DTRRecord) : String :=
  match calculate_hours_worked record with
  | some h => if h = 0 then "\n\n**Complete DTR for today!**" else hours_block h
  | none => "\n\n**Complete DTR for today!**"

/-- The hours section of `!status` (lines 1008-1020): shown only when all
four slots are non-empty and the computed hours are truthy; otherwise the
reply is the bare record message. -/
def status_hours_section (record : DTRRecord) : String :=
  if record.AM_IN ≠ "" ∧ record.AM_OUT ≠ "" ∧ record.PM_IN ≠ "" ∧ record.PM_OUT ≠ "" then
    match calculate_hours_worked record with
    | some h => if h = 0 then "" else hours_block h
    | none => ""
  else ""

/-! ## AM_IN response classification (src/main.py lines 171-175, 830-840) -/

/-- The three response-flavor buckets of `am_in`. -/
inductive Flavor where
  | morningPerson
  | late
  | normal
  deriving DecidableEq

/-- `current_time < MORNING_PERSON_CUTOFF` — Python tuple comparison of
`(hour, minute)` against the cutoff pair (line 833). -/
def beforeMorningCutoff (hour minute : Nat) : Bool :=
  decide (hour < MORNING_PERSON_CUTOFF.1
    ∨ (hour = MORNING_PERSON_CUTOFF.1 ∧ minute < MORNING_PERSON_CUTOFF.2))

/-- `is_late` (lines 171-175): the current instant is at-or-after
`AM_IN_CUTOFF` with seconds (and microseconds) of the cutoff zeroed. -/
def is_late (hour minute second : Nat) : Bool :=
  decide (AM_IN_CUTOFF.1 * 3600 + AM_IN_CUTOFF.2 * 60 ≤ hour * 3600 + minute * 60 + second)

/-- The response-flavor selection of `am_in` (lines 830-840): an `if/elif`
chain in which each branch also requires its message list to be non-empty
(`hasX` flags); `none` when no branch fires. -/
def am_in_flavor (hour minute second : Nat)
    (hasMorningPerson hasLate hasNormal : Bool) : Option Flavor :=
  if beforeMorningCutoff hour minute && hasMorningPerson then some .morningPerson
  else if is_late hour minute second && hasLate then some .late
  else if hasNormal then some .normal
  else none

/-! ## Reminder pass (src/main.py `reminder_loop`, lines 1100-1141)

The loop body would run once per minute for each known user (in this
revision the coroutine is in fact never scheduled: no `create_task` in
`on_ready` or `__main__`).  `reminder_pass` is the per-user body of one
pass, parametrised by the user's current reconstructed record and the
current instant (seconds since midnight).

`calculate_hours_worked` always returns `None` here (`PM_OUT` is empty), so
the hours fall back to line 1128, which substitutes the current instant for
the missing `PM_OUT`:
`(am_out - am_in).total_seconds() + (now() - pm_in).total_seconds()`.
`now()` (line 97) is timezone-aware, while `parse_time_from_string` returns
*naive* datetimes (line 200; its docstring says so), and subtracting a
naive datetime from an aware one raises `TypeError`.  The `try/except` at
lines 1132-1138 wraps only `await user.send(...)`, so that exception is
uncaught and kills the pass before the send condition is evaluated.
Datetimes therefore carry their awareness here and subtraction is fallible,
and the pass returns in `Except`. -/

/-- A Python `datetime` restricted to what the reminder pass uses: the time
of day in seconds plus whether the value is timezone-aware.  `now()` is
aware; parsed times are naive. -/
structure PyDateTime where
  secs : Nat
  aware : Bool
  deriving DecidableEq

/-- Python datetime subtraction in seconds: defined only between two naive
or two aware values; mixing them raises `TypeError`. -/
def pySub (x y : PyDateTime) : Except String Int :=
  if x.aware = y.aware then .ok ((x.secs : Int) - (y.secs : Int))
  else .error "TypeError: cannot subtract offset-naive and offset-aware datetimes"

/-- One reminder pass for one user (lines 1113-1138): AM slots present,
neither PM slot the `"N/A"` sentinel, `PM_IN` present and `PM_OUT` absent;
then the hours are computed — `calculate_hours_worked` first, else the
line-1128 fallback, whose second subtraction mixes the aware `now()` with
the naive parsed `pm_in` and raises — and the DM is sent when the hours are
truthy (`if hours_worked:`) and the remaining time to `REQUIRED_HOURS` is
at most the 5-minute lead.  `.ok b`: the pass returns normally and `b` is
the send decision; `.error msg`: the pass dies on the uncaught exception
before any send. -/
def reminder_pass (record : DTRRecord) (nowS : Nat) : Except String Bool :=
  if record.AM_IN ≠ "" ∧ record.AM_OUT ≠ "" then
    if record.PM_IN = "N/A" ∨ record.PM_OUT = "N/A" then .ok false
    else if record.PM_IN ≠ "" ∧ record.PM_OUT = "" then
      match calculate_hours_worked record with
      | some h =>
        .ok (decide (h ≠ 0) &&
          decide ((REQUIRED_HOURS : Rat) - h ≤ (REMINDER_THRESHOLD_MINUTES : Rat) / 60))
      | none =>
        match parse_time_from_string record.AM_IN, parse_time_from_string record.AM_OUT,
              parse_time_from_string record.PM_IN with
        | some a, some b, some c => do
          let morning ← pySub ⟨b, false⟩ ⟨a, false⟩
          let closing ← pySub ⟨nowS, true⟩ ⟨c, false⟩
          let h : Rat := ((morning + closing : Int) : Rat) / 3600
          pure (decide (h ≠ 0) &&
            decide ((REQUIRED_HOURS : Rat) - h ≤ (REMINDER_THRESHOLD_MINUTES : Rat) / 60))
        | _, _, _ => .ok false
    else .ok false
  else .ok false

/-! ## Bridging lemmas for evaluation -/

/-- The computable `Rat.floor` agrees with Mathlib's `⌊·⌋`. -/
theorem ratFloor_eq (q : Rat) : q.floor = ⌊q⌋ :=
  (Rat.floor_def' q).trans Rat.floor_def.symm

/-- `pyRound` as a Mathlib floor, for `norm_num`-style evaluation. -/
theorem pyRound_eq (x : Rat) : pyRound x = ⌊x + 1 / 2⌋ := by
  unfold pyRound
  exact ratFloor_eq _

/-- A successfully parsed time string is non-empty. -/
theorem parse_some_ne_empty {s : String} {t : Nat}
    (h : parse_time_from_string s = some t) : s ≠ "" := by
  intro he
  rw [he] at h
  exact Option.noConfusion h

/-! ## Reconstruction lemmas -/

theorem slotGet_slotSet (r : DTRRecord) (s' s : Slot) (v : String) :
    slotGet (slotSet r s' v) s = if s' = s then v else slotGet r s := by
  cases s' <;> cases s <;> simp [slotGet, slotSet]

theorem slotGet_applyRow (r : DTRRecord) (row : SheetRow) (s : Slot) :
    slotGet (applyRow r row) s =
      if classifyRow row = some s then convertInputTime row.inputTime else slotGet r s := by
  unfold applyRow
  cases hc : classifyRow row with
  | none => simp [hc]
  | some s' =>
    rw [slotGet_slotSet]
    by_cases h : s' = s <;> simp [h]

theorem foldl_applyRow_slot (rows : List SheetRow) (r : DTRRecord) (s : Slot) :
    slotGet (rows.foldl applyRow r) s =
      match lastMatchingRow s rows with
      | some e => convertInputTime e.inputTime
      | none => slotGet r s := by
  induction rows generalizing r with
  | nil => rfl
  | cons row rest ih =>
    have hstep : lastMatchingRow s (row :: rest) =
        match lastMatchingRow s rest with
        | some e => some e
        | none => if classifyRow row = some s then some row else none := rfl
    rw [List.foldl_cons, ih, hstep]
    cases hl : lastMatchingRow s rest with
    | some e => rfl
    | none =>
      rw [slotGet_applyRow]
      by_cases hc : classifyRow row = some s <;> simp [hc]

/-- C4: reconstruction is last-write-wins per slot — for every ordered event
list and every slot, the reconstructed record holds the (converted) input
time of the last event whose `Time Clock` label matches that slot, and the
empty string when no event matches; in particular appending `E1` then `E2`
for the same slot yields `E2`'s value regardless of `E1`, and reconstruction
is a pure (hence deterministic) fold over the list. -/
theorem get_full_record_last_write_wins (rows : List SheetRow) (s : Slot) :
    slotGet (get_full_record rows) s =
      match lastMatchingRow s rows with
      | some e => convertInputTime e.inputTime
      | none => "" := by
  unfold get_full_record
  rw [foldl_applyRow_slot]
  cases lastMatchingRow s rows with
  | none => cases s <;> rfl
  | some e => rfl

/-- C4 witness: two `AM - Time In` events in order — reconstruction keeps
the second one's converted value. -/
theorem get_full_record_last_write_wins_witness :
    slotGet (get_full_record
        [⟨"AM - Time In", "8:00:00 AM"⟩, ⟨"AM - Time In", "9:15:00 AM"⟩]) .amIn
      = match lastMatchingRow .amIn
          [⟨"AM - Time In", "8:00:00 AM"⟩, ⟨"AM - Time In", "9:15:00 AM"⟩] with
        | some e => convertInputTime e.inputTime
        | none => "" :=
  get_full_record_last_write_wins
    [⟨"AM - Time In", "8:00:00 AM"⟩, ⟨"AM - Time In", "9:15:00 AM"⟩] .amIn

/-- C2: evaluating `half_day` at the failing input — a morning half-day
whose first sentinel append succeeds and whose second append fails leaves
exactly one of the two `"N/A"` events persisted while reporting failure,
whereas the claim requires both-or-neither; the all-succeed and
first-append-fails runs are shown alongside for contrast. -/
theorem half_day_partial_append :
    half_day_step ⟨"8:00 AM", "12:00 PM", "", ""⟩ .morning true false
      = ([⟨"PM - Time In", "N/A"⟩], .storeFailed "Failed to record half-day. Contact an admin.")
    ∧ half_day_step ⟨"8:00 AM", "12:00 PM", "", ""⟩ .morning true true
      = ([⟨"PM - Time In", "N/A"⟩, ⟨"PM - Time Out", "N/A"⟩], .completed none)
    ∧ half_day_step ⟨"8:00 AM", "12:00 PM", "", ""⟩ .morning false false
      = ([], .storeFailed "Failed to record half-day. Contact an admin.") :=
  ⟨by decide, by decide, by decide⟩

/-- C1: sequencing validation is blocking for the `AM_OUT` and `PM_IN`
transitions — whenever the preconditions pass but the proposed record
(current record with the new time in the corresponding slot) fails
`validate_time_sequence`, the transition returns the sequencing error and
appends nothing, for every append-success oracle — and advisory for
`PM_OUT`, where a failing validation only yields a warning and the append
is still performed. -/
theorem sequencing_blocking_and_advisory :
    (∀ (r : DTRRecord) (t : String) (ok : Bool) (m : String),
      r.AM_IN ≠ "" → r.AM_OUT = "" → r.PM_OUT = "" →
      validate_time_sequence { r with AM_OUT := t } = (false, some m) →
      am_out_step r t ok = ([], .rejected m))
    ∧ (∀ (r : DTRRecord) (t : String) (ok : Bool) (m : String),
      r.AM_OUT ≠ "" → r.PM_IN = "" → r.PM_OUT = "" →
      validate_time_sequence { r with PM_IN := t } = (false, some m) →
      pm_in_step r t ok = ([], .rejected m))
    ∧ (∀ (r : DTRRecord) (t : String) (m : String),
      r.PM_IN ≠ "" → r.PM_OUT = "" →
      validate_time_sequence { r with PM_OUT := t } = (false, some m) →
      pm_out_step r t true
        = ([⟨"PM - Time Out", strip_leading_apostrophe t⟩],
           .completed (some ("Time validation warning: " ++ m)))) := by
  refine ⟨?_, ?_, ?_⟩
  · intro r t ok m h1 h2 h3 hval
    unfold am_out_step
    rw [if_neg (by simp [h1]), if_neg (by simp [h2]), if_neg (by simp [h3]), hval]
    rfl
  · intro r t ok m h1 h2 h3 hval
    unfold pm_in_step
    rw [if_neg (by simp [h1]), if_neg (by simp [h2]), if_neg (by simp [h3]), hval]
    rfl
  · intro r t m h1 h2 hval
    unfold pm_out_step
    rw [if_neg (by simp [h1]), if_neg (by simp [h2]), hval]
    rfl

/-- C1 witness: concrete invalid proposals — an `AM_OUT` of 8:00 AM against
an `AM_IN` of 9:00 AM is refused with no append, while a `PM_OUT` of
12:30 PM against a `PM_IN` of 1:00 PM is appended with a warning. -/
theorem sequencing_blocking_and_advisory_witness :
    am_out_step ⟨"9:00 AM", "", "", ""⟩ "8:00:00 AM" true
      = ([], .rejected "AM OUT must be after AM IN.")
    ∧ pm_in_step ⟨"9:00 AM", "12:00 PM", "", ""⟩ "11:00:00 AM" false
      = ([], .rejected "PM IN must be after AM OUT.")
    ∧ pm_out_step ⟨"9:00 AM", "12:00 PM", "1:00 PM", ""⟩ "12:30:00 PM" true
      = ([⟨"PM - Time Out", "12:30:00 PM"⟩],
         .completed (some ("Time validation warning: " ++ "PM OUT must be after PM IN."))) :=
  ⟨sequencing_blocking_and_advisory.1 ⟨"9:00 AM", "", "", ""⟩ "8:00:00 AM" true
      "AM OUT must be after AM IN." (by decide) rfl rfl (by decide),
   sequencing_blocking_and_advisory.2.1 ⟨"9:00 AM", "12:00 PM", "", ""⟩ "11:00:00 AM" false
      "PM IN must be after AM OUT." (by decide) rfl rfl (by decide),
   sequencing_blocking_and_advisory.2.2 ⟨"9:00 AM", "12:00 PM", "1:00 PM", ""⟩ "12:30:00 PM"
      "PM OUT must be after PM IN." (by decide) rfl (by decide)⟩

/-- C9: the `"N/A"` sentinel counts as a present value for the transition
preconditions — with `AM_OUT` present and `PM_IN = "N/A"`, `pm_in` is
rejected as already clocked; with both PM slots `"N/A"`, `pm_out` is
rejected as day-complete — the morning half-day is what appends the two
sentinel events (whose input time reconstructs to `"N/A"` verbatim), and a
privileged `manual_entry` still appends to such a slot (validation is
advisory there). -/
theorem sentinel_na_closes_slots :
    (∀ (r : DTRRecord) (t : String) (ok : Bool),
      r.AM_OUT ≠ "" → r.PM_IN = "N/A" →
      pm_in_step r t ok = ([], .rejected "You already clocked PM IN today."))
    ∧ (∀ (r : DTRRecord) (t : String) (ok : Bool),
      r.PM_IN = "N/A" → r.PM_OUT = "N/A" →
      pm_out_step r t ok
        = ([], .rejected "Your work day is already complete. You cannot clock out again."))
    ∧ (∀ (r : DTRRecord),
      r.AM_IN ≠ "" → r.AM_OUT ≠ "" → r.PM_IN = "" → r.PM_OUT = "" →
      half_day_step r .morning true true
        = ([⟨"PM - Time In", "N/A"⟩, ⟨"PM - Time Out", "N/A"⟩], .completed none))
    ∧ convertInputTime "N/A" = "N/A"
    ∧ (∀ (r : DTRRecord) (s : Slot) (tv : String) (t : Nat),
      parse_time_from_string tv = some t →
      (manual_entry_step r s tv true).1
        = [⟨slotLabel s, strip_leading_apostrophe (fmtSheet (t / 3600) (t % 3600 / 60))⟩]) := by
  refine ⟨?_, ?_, ?_, by decide, ?_⟩
  · intro r t ok h1 h2
    unfold pm_in_step
    rw [if_neg (by simp [h1]), if_pos (by simp [h2])]
  · intro r t ok h1 h2
    unfold pm_out_step
    rw [if_neg (by simp [h1]), if_pos (by simp [h2])]
  · intro r h1 h2 h3 h4
    unfold half_day_step
    rw [if_neg (by simp [h1, h2]), if_neg (by simp [h3, h4])]
    rfl
  · intro r s tv t hp
    unfold manual_entry_step
    rw [hp]
    rfl

/-- C9 witness: the record left by a morning half-day (`8:00 AM`-`12:00 PM`
morning, both PM slots `"N/A"`) refuses `pm_in` and `pm_out`, and a manual
`PM IN` entry of 1:00 PM is still appended. -/
theorem sentinel_na_closes_slots_witness :
    pm_in_step ⟨"8:00 AM", "12:00 PM", "N/A", "N/A"⟩ "1:00:00 PM" true
      = ([], .rejected "You already clocked PM IN today.")
    ∧ pm_out_step ⟨"8:00 AM", "12:00 PM", "N/A", "N/A"⟩ "5:00:00 PM" true
      = ([], .rejected "Your work day is already complete. You cannot clock out again.")
    ∧ half_day_step ⟨"8:00 AM", "12:00 PM", "", ""⟩ .morning true true
      = ([⟨"PM - Time In", "N/A"⟩, ⟨"PM - Time Out", "N/A"⟩], .completed none)
    ∧ (manual_entry_step ⟨"8:00 AM", "12:00 PM", "N/A", "N/A"⟩ .pmIn "1:00 PM" true).1
      = [⟨slotLabel .pmIn, strip_leading_apostrophe (fmtSheet (46800 / 3600) (46800 % 3600 / 60))⟩] :=
  ⟨sentinel_na_closes_slots.1 ⟨"8:00 AM", "12:00 PM", "N/A", "N/A"⟩ "1:00:00 PM" true
      (by decide) rfl,
   sentinel_na_closes_slots.2.1 ⟨"8:00 AM", "12:00 PM", "N/A", "N/A"⟩ "5:00:00 PM" true rfl rfl,
   sentinel_na_closes_slots.2.2.1 ⟨"8:00 AM", "12:00 PM", "", ""⟩ (by decide) (by decide) rfl rfl,
   sentinel_na_closes_slots.2.2.2.2 ⟨"8:00 AM", "12:00 PM", "N/A", "N/A"⟩ .pmIn "1:00 PM" 46800
      (by decide)⟩

/-- Evaluation shape of the validator once the four parse results are
known. -/
theorem validate_eval (r : DTRRecord) (x1 x2 x3 x4 : Option Nat)
    (h1 : parse_time_from_string r.AM_IN = x1)
    (h2 : parse_time_from_string r.AM_OUT = x2)
    (h3 : parse_time_from_string r.PM_IN = x3)
    (h4 : parse_time_from_string r.PM_OUT = x4) :
    validate_time_sequence r =
      if pairViolation x1 x2 then (false, some "AM OUT must be after AM IN.")
      else if pairViolation x2 x3 then (false, some "PM IN must be after AM OUT.")
      else if pairViolation x3 x4 then (false, some "PM OUT must be after PM IN.")
      else (true, none) := by
  unfold validate_time_sequence
  rw [h1, h2, h3, h4]

theorem pairViolation_some_false {a b : Nat} (h : a < b) :
    pairViolation (some a) (some b) = false := by
  simp only [pairViolation, decide_eq_false_iff_not]
  omega

theorem pairViolation_some_true {a b : Nat} (h : b ≤ a) :
    pairViolation (some a) (some b) = true := by
  simp only [pairViolation, decide_eq_true_eq]
  exact h

/-- C5: the validator checks exactly the pairs `AM_OUT > AM_IN`,
`PM_IN > AM_OUT`, `PM_OUT > PM_IN`, only when both sides parse: a record
with all four slots parseable and strictly increasing validates Ok; making
one checked pair non-increasing (earlier pairs left in order) produces the
error naming exactly that pair; `"N/A"` never parses, and a half-day record
(either half's pair unparseable) passes the checks involving the skipped
side. -/
theorem validate_time_sequence_pairs :
    (∀ (r : DTRRecord) (a b c d : Nat),
      parse_time_from_string r.AM_IN = some a →
      parse_time_from_string r.AM_OUT = some b →
      parse_time_from_string r.PM_IN = some c →
      parse_time_from_string r.PM_OUT = some d →
      ((a < b ∧ b < c ∧ c < d → validate_time_sequence r = (true, none))
        ∧ (b ≤ a → validate_time_sequence r = (false, some "AM OUT must be after AM IN."))
        ∧ (a < b ∧ c ≤ b → validate_time_sequence r = (false, some "PM IN must be after AM OUT."))
        ∧ (a < b ∧ b < c ∧ d ≤ c →
            validate_time_sequence r = (false, some "PM OUT must be after PM IN."))))
    ∧ parse_time_from_string "N/A" = none
    ∧ (∀ (r : DTRRecord) (a b : Nat),
      parse_time_from_string r.AM_IN = some a →
      parse_time_from_string r.AM_OUT = some b →
      parse_time_from_string r.PM_IN = none →
      parse_time_from_string r.PM_OUT = none →
      a < b → validate_time_sequence r = (true, none))
    ∧ (∀ (r : DTRRecord) (c d : Nat),
      parse_time_from_string r.AM_IN = none →
      parse_time_from_string r.AM_OUT = none →
      parse_time_from_string r.PM_IN = some c →
      parse_time_from_string r.PM_OUT = some d →
      c < d → validate_time_sequence r = (true, none)) := by
  refine ⟨?_, by decide, ?_, ?_⟩
  · intro r a b c d h1 h2 h3 h4
    rw [validate_eval r _ _ _ _ h1 h2 h3 h4]
    refine ⟨?_, ?_, ?_, ?_⟩
    · intro ⟨o1, o2, o3⟩
      rw [pairViolation_some_false o1, pairViolation_some_false o2, pairViolation_some_false o3]
      rfl
    · intro o1
      rw [pairViolation_some_true o1]
      rfl
    · intro ⟨o1, o2⟩
      rw [pairViolation_some_false o1, pairViolation_some_true o2]
      rfl
    · intro ⟨o1, o2, o3⟩
      rw [pairViolation_some_false o1, pairViolation_some_false o2, pairViolation_some_true o3]
      rfl
  · intro r a b h1 h2 h3 h4 hab
    rw [validate_eval r _ _ _ _ h1 h2 h3 h4, pairViolation_some_false hab]
    rfl
  · intro r c d h1 h2 h3 h4 hcd
    rw [validate_eval r _ _ _ _ h1 h2 h3 h4, pairViolation_some_false hcd]
    rfl

/-- C5 witness: a strictly increasing full record validates Ok, an
`AM_OUT` at-or-before `AM_IN` yields the first pair's error, and a morning
half-day record (`PM` slots `"N/A"`) validates Ok. -/
theorem validate_time_sequence_pairs_witness :
    validate_time_sequence ⟨"8:00 AM", "12:00 PM", "1:00 PM", "5:00 PM"⟩ = (true, none)
    ∧ validate_time_sequence ⟨"8:00 AM", "8:00 AM", "1:00 PM", "5:00 PM"⟩
      = (false, some "AM OUT must be after AM IN.")
    ∧ validate_time_sequence ⟨"8:00 AM", "12:00 PM", "N/A", "N/A"⟩ = (true, none) :=
  ⟨(validate_time_sequence_pairs.1 ⟨"8:00 AM", "12:00 PM", "1:00 PM", "5:00 PM"⟩
      28800 43200 46800 61200 (by decide) (by decide) (by decide) (by decide)).1
      (by omega),
   (validate_time_sequence_pairs.1 ⟨"8:00 AM", "8:00 AM", "1:00 PM", "5:00 PM"⟩
      28800 28800 46800 61200 (by decide) (by decide) (by decide) (by decide)).2.1
      (by omega),
   validate_time_sequence_pairs.2.2.1 ⟨"8:00 AM", "12:00 PM", "N/A", "N/A"⟩
      28800 43200 (by decide) (by decide) (by decide) (by decide) (by omega)⟩

/-- C7: time formatting round-trips through parsing — for every hour 0-23
and minute 0-59, both the store form `H:MM:00 AM/PM` and the display form
`H:MM AM/PM` parse back to exactly that time of day (12 AM / 12 PM
included). -/
theorem time_format_round_trip :
    ∀ h, h < 24 → ∀ m, m < 60 →
      parse_time_from_string (time_for_sheets h m) = some (h * 3600 + m * 60)
      ∧ parse_time_from_string (time_for_discord h m) = some (h * 3600 + m * 60) := by
  decide

/-- C7 witness: the midnight boundary 12:05 AM and the noon boundary
12:00 PM round-trip through both forms. -/
theorem time_format_round_trip_witness :
    (parse_time_from_string (time_for_sheets 0 5) = some 300
      ∧ parse_time_from_string (time_for_discord 0 5) = some 300)
    ∧ (parse_time_from_string (time_for_sheets 12 0) = some 43200
      ∧ parse_time_from_string (time_for_discord 12 0) = some 43200) :=
  ⟨time_format_round_trip 0 (by omega) 5 (by omega),
   time_format_round_trip 12 (by omega) 0 (by omega)⟩

/-- C8: `am_in` classifies the clock-in moment into exactly one of three
buckets, in priority order — morning-person when `(hour, minute)` is
strictly before the 7:44 cutoff, else late when the instant is at-or-after
10:00 (the cutoff instant itself counting as late), else normal — and, with
all three message lists non-empty, exactly one bucket's flavor is selected
for every moment. -/
theorem am_in_classification (h m s : Nat) :
    am_in_flavor h m s true true true
      = some (if beforeMorningCutoff h m then .morningPerson
              else if is_late h m s then .late else .normal)
    ∧ (am_in_flavor h m s true true true = some .morningPerson ↔
        h < 7 ∨ (h = 7 ∧ m < 44))
    ∧ (am_in_flavor h m s true true true = some .late ↔
        ¬(h < 7 ∨ (h = 7 ∧ m < 44)) ∧ 10 * 3600 ≤ h * 3600 + m * 60 + s)
    ∧ (am_in_flavor h m s true true true = some .normal ↔
        ¬(h < 7 ∨ (h = 7 ∧ m < 44)) ∧ h * 3600 + m * 60 + s < 10 * 3600) := by
  unfold am_in_flavor beforeMorningCutoff is_late MORNING_PERSON_CUTOFF AM_IN_CUTOFF
  by_cases hb : h < 7 ∨ (h = 7 ∧ m < 44) <;>
    by_cases hl : 10 * 3600 ≤ h * 3600 + m * 60 + s <;>
      simp [hb, hl] <;> omega

/-- C8 witness: the classification instantiated at 9:59:59 (normal — one
second before the late cutoff). -/
theorem am_in_classification_witness :
    am_in_flavor 9 59 59 true true true
      = some (if beforeMorningCutoff 9 59 then .morningPerson
              else if is_late 9 59 59 then .late else .normal)
    ∧ (am_in_flavor 9 59 59 true true true = some .morningPerson ↔
        9 < 7 ∨ (9 = 7 ∧ 59 < 44))
    ∧ (am_in_flavor 9 59 59 true true true = some .late ↔
        ¬(9 < 7 ∨ (9 = 7 ∧ 59 < 44)) ∧ 10 * 3600 ≤ 9 * 3600 + 59 * 60 + 59)
    ∧ (am_in_flavor 9 59 59 true true true = some .normal ↔
        ¬(9 < 7 ∨ (9 = 7 ∧ 59 < 44)) ∧ 9 * 3600 + 59 * 60 + 59 < 10 * 3600) :=
  am_in_classification 9 59 59

/-! ## Reminder-pass lemmas -/

/-- In every state the reminder pass is interested in — AM slots and
`PM_IN` parseable, `PM_OUT` absent — the pass reaches the line-1128
fallback and dies on the aware-minus-naive `TypeError`, before the send
condition is ever evaluated. -/
theorem reminder_pass_eval (r : DTRRecord) (n a b c : Nat)
    (hA : parse_time_from_string r.AM_IN = some a)
    (hB : parse_time_from_string r.AM_OUT = some b)
    (hC : parse_time_from_string r.PM_IN = some c)
    (hPO : r.PM_OUT = "") :
    reminder_pass r n
      = .error "TypeError: cannot subtract offset-naive and offset-aware datetimes" := by
  have hAne : r.AM_IN ≠ "" := parse_some_ne_empty hA
  have hBne : r.AM_OUT ≠ "" := parse_some_ne_empty hB
  have hCne : r.PM_IN ≠ "" := parse_some_ne_empty hC
  have hCna : r.PM_IN ≠ "N/A" := by
    intro he
    rw [he, show parse_time_from_string "N/A" = none from by decide] at hC
    exact Option.noConfusion hC
  have hPOparse : parse_time_from_string r.PM_OUT = none := by
    rw [hPO]
    decide
  have hcalc : calculate_hours_worked r = none := by
    unfold calculate_hours_worked
    rw [hA, hB, hC, hPOparse]
  unfold reminder_pass
  rw [if_pos ⟨hAne, hBne⟩,
    if_neg (by
      rintro (he | he)
      · exact hCna he
      · exact absurd (hPO ▸ he) (by decide)),
    if_pos ⟨hCne, hPO⟩, hcalc, hA, hB, hC]
  rfl

/-- After `PM_OUT` is set the reminder precondition stops matching: the
pass returns normally without sending (and without raising). -/
theorem reminder_pass_after_pm_out (r : DTRRecord) (n : Nat)
    (h : r.PM_OUT ≠ "") : reminder_pass r n = .ok false := by
  unfold reminder_pass
  by_cases h1 : r.AM_IN ≠ "" ∧ r.AM_OUT ≠ ""
  · rw [if_pos h1]
    by_cases h2 : r.PM_IN = "N/A" ∨ r.PM_OUT = "N/A"
    · rw [if_pos h2]
    · rw [if_neg h2, if_neg (by rintro ⟨-, hpo⟩; exact h hpo)]
  · rw [if_neg h1]

/-- C3: evaluating the reminder pass at the claim's own scenario — a 4-hour
morning, `PM_IN` = 1:00 PM, `PM_OUT` absent.  At 16:55:00, the pass in
which the remaining time first reaches the 5-minute lead, the pass raises
the uncaught `TypeError` of line 1128 (aware `now()` minus naive `pm_in`)
instead of sending the reminder, and the later pass at 16:56:00 raises the
same way: the send is unreachable, so no reminder is ever emitted
(independently, `reminder_loop` is never scheduled in this revision).  Once
`PM_OUT` is set the pass returns normally without sending. -/
theorem reminder_pass_crashes_before_send :
    reminder_pass ⟨"8:00 AM", "12:00 PM", "1:00 PM", ""⟩ 60900
      = .error "TypeError: cannot subtract offset-naive and offset-aware datetimes"
    ∧ reminder_pass ⟨"8:00 AM", "12:00 PM", "1:00 PM", ""⟩ 60960
      = .error "TypeError: cannot subtract offset-naive and offset-aware datetimes"
    ∧ reminder_pass ⟨"8:00 AM", "12:00 PM", "1:00 PM", "5:00 PM"⟩ 60900 = .ok false :=
  ⟨reminder_pass_eval ⟨"8:00 AM", "12:00 PM", "1:00 PM", ""⟩ 60900 28800 43200 46800
      (by decide) (by decide) (by decide) rfl,
   reminder_pass_eval ⟨"8:00 AM", "12:00 PM", "1:00 PM", ""⟩ 60960 28800 43200 46800
      (by decide) (by decide) (by decide) rfl,
   reminder_pass_after_pm_out ⟨"8:00 AM", "12:00 PM", "1:00 PM", "5:00 PM"⟩ 60900
      (by decide)⟩

/-! ## Hours-calculator lemmas -/

/-- Evaluation shape of the hours calculator once the four parse results
are known. -/
theorem calculate_eval (r : DTRRecord) (a b c d : Nat)
    (hA : parse_time_from_string r.AM_IN = some a)
    (hB : parse_time_from_string r.AM_OUT = some b)
    (hC : parse_time_from_string r.PM_IN = some c)
    (hD : parse_time_from_string r.PM_OUT = some d) :
    calculate_hours_worked r =
      if (((b : Int) - (a : Int) : Int) : Rat) / 3600 < 0
          ∨ (((d : Int) - (c : Int) : Int) : Rat) / 3600 < 0 then none
      else some (round2 ((((b : Int) - (a : Int) : Int) : Rat) / 3600
        + (((d : Int) - (c : Int) : Int) : Rat) / 3600)) := by
  unfold calculate_hours_worked
  rw [hA, hB, hC, hD]

/-- Evaluate `round2` at a value whose scaled floor is known. -/
theorem round2_eval (x : Rat) (z : Int) (h1 : (z : Rat) ≤ x * 100 + 1 / 2)
    (h2 : x * 100 + 1 / 2 < z + 1) : round2 x = (z : Rat) / 100 := by
  unfold round2
  rw [pyRound_eq, Int.floor_eq_iff.mpr ⟨h1, h2⟩]

/-- With non-negative spans the calculator returns the rounded total. -/
theorem calculate_of_nonneg_spans (r : DTRRecord) (a b c d : Nat)
    (hA : parse_time_from_string r.AM_IN = some a)
    (hB : parse_time_from_string r.AM_OUT = some b)
    (hC : parse_time_from_string r.PM_IN = some c)
    (hD : parse_time_from_string r.PM_OUT = some d)
    (hab : a ≤ b) (hcd : c ≤ d) :
    calculate_hours_worked r =
      some (round2 (((((b : Int) - (a : Int)) + ((d : Int) - (c : Int)) : Int) : Rat) / 3600)) := by
  have hm0 : (0 : Int) ≤ (b : Int) - (a : Int) := by omega
  have ha0 : (0 : Int) ≤ (d : Int) - (c : Int) := by omega
  have hm : (0 : Rat) ≤ (((b : Int) - (a : Int) : Int) : Rat) / 3600 :=
    div_nonneg (by exact_mod_cast hm0) (by norm_num)
  have ha : (0 : Rat) ≤ (((d : Int) - (c : Int) : Int) : Rat) / 3600 :=
    div_nonneg (by exact_mod_cast ha0) (by norm_num)
  rw [calculate_eval r a b c d hA hB hC hD]
  rw [if_neg (not_or.mpr ⟨not_lt.mpr hm, not_lt.mpr ha⟩)]
  rw [show (((b : Int) - (a : Int) : Int) : Rat) / 3600
        + (((d : Int) - (c : Int) : Int) : Rat) / 3600
      = ((((b : Int) - (a : Int)) + ((d : Int) - (c : Int)) : Int) : Rat) / 3600 by
    push_cast
    ring]

/-- C6 counterexample: for the record 8:00 AM / 12:00 PM / 1:00 PM /
5:20 PM (spans 4h and 4h20m, exact sum 25/3 hours) the calculator does
*not* return the exact sum of the spans in hours: it returns the
two-decimal rounding 8.33. -/
theorem calculate_hours_rounding_cex :
    calculate_hours_worked ⟨"8:00 AM", "12:00 PM", "1:00 PM", "5:20 PM"⟩
      ≠ some (((((43200 : Int) - 28800) + ((62400 : Int) - 46800) : Int) : Rat) / 3600)
    ∧ calculate_hours_worked ⟨"8:00 AM", "12:00 PM", "1:00 PM", "5:20 PM"⟩
      = some (833 / 100)
    ∧ ((((43200 : Int) - 28800) + ((62400 : Int) - 46800) : Int) : Rat) / 3600 = 25 / 3 := by
  have heval : calculate_hours_worked ⟨"8:00 AM", "12:00 PM", "1:00 PM", "5:20 PM"⟩
      = some (833 / 100) := by
    rw [calculate_of_nonneg_spans ⟨"8:00 AM", "12:00 PM", "1:00 PM", "5:20 PM"⟩
        28800 43200 46800 62400 (by decide) (by decide) (by decide) (by decide)
        (by omega) (by omega)]
    norm_num
    rw [round2_eval (25 / 3) 833 (by norm_num) (by norm_num)]
    norm_num
  refine ⟨?_, heval, by norm_num⟩
  rw [heval]
  intro hcontra
  rw [Option.some_inj] at hcontra
  norm_num at hcontra

/-- C6 (amended): `hoursWorked` returns the two-decimal rounding of
`(AM_OUT − AM_IN) + (PM_OUT − PM_IN)` in hours when all four slots are
present and parseable and both spans are non-negative, and returns
`Incomplete` (`None`) when any slot is missing or unparseable (including
`"N/A"`) or either span is negative; in particular, for AM_IN=8:00 AM,
AM_OUT=12:00 PM, PM_IN=1:00 PM, PM_OUT=5:00 PM it returns 8.0, which
formats as `"8h 0m"` and meets the 8-hour requirement. -/
theorem calculate_hours_worked_spec :
    (∀ (r : DTRRecord) (a b c d : Nat),
      parse_time_from_string r.AM_IN = some a →
      parse_time_from_string r.AM_OUT = some b →
      parse_time_from_string r.PM_IN = some c →
      parse_time_from_string r.PM_OUT = some d →
      a ≤ b → c ≤ d →
      calculate_hours_worked r
        = some (round2 (((((b : Int) - (a : Int)) + ((d : Int) - (c : Int)) : Int) : Rat) / 3600)))
    ∧ (∀ (r : DTRRecord) (a b c d : Nat),
      parse_time_from_string r.AM_IN = some a →
      parse_time_from_string r.AM_OUT = some b →
      parse_time_from_string r.PM_IN = some c →
      parse_time_from_string r.PM_OUT = some d →
      (b < a ∨ d < c) → calculate_hours_worked r = none)
    ∧ (∀ (r : DTRRecord),
      (parse_time_from_string r.AM_IN = none ∨ parse_time_from_string r.AM_OUT = none
        ∨ parse_time_from_string r.PM_IN = none ∨ parse_time_from_string r.PM_OUT = none) →
      calculate_hours_worked r = none)
    ∧ parse_time_from_string "N/A" = none
    ∧ calculate_hours_worked ⟨"8:00 AM", "12:00 PM", "1:00 PM", "5:00 PM"⟩ = some 8
    ∧ format_hours_display 8 = "8h 0m"
    ∧ (8 : Rat) ≥ (REQUIRED_HOURS : Rat)
    ∧ pm_out_summary ⟨"8:00 AM", "12:00 PM", "1:00 PM", "5:00 PM"⟩
      = "\n\n**Total Hours Worked: 8h 0m**\n**Completed 8-hour requirement!**" := by
  have hcalc8 : calculate_hours_worked ⟨"8:00 AM", "12:00 PM", "1:00 PM", "5:00 PM"⟩
      = some 8 := by
    rw [calculate_of_nonneg_spans ⟨"8:00 AM", "12:00 PM", "1:00 PM", "5:00 PM"⟩
        28800 43200 46800 61200 (by decide) (by decide) (by decide) (by decide)
        (by omega) (by omega)]
    norm_num
    rw [round2_eval 8 800 (by norm_num) (by norm_num)]
    norm_num
  have hfmt : format_hours_display 8 = "8h 0m" := by
    unfold format_hours_display
    rw [show pyInt 8 = 8 by
      unfold pyInt
      rw [if_pos (by norm_num : (0 : Rat) ≤ 8), ratFloor_eq, Int.floor_eq_iff]
      constructor <;> norm_num]
    rw [show pyRound ((8 - ((8 : Int) : Rat)) * 60) = 0 by
      rw [pyRound_eq, Int.floor_eq_iff]
      constructor <;> norm_num]
    rfl
  refine ⟨?_, ?_, ?_, by decide, hcalc8, hfmt, ?_, ?_⟩
  · exact fun r a b c d hA hB hC hD hab hcd =>
      calculate_of_nonneg_spans r a b c d hA hB hC hD hab hcd
  · intro r a b c d hA hB hC hD hneg
    rw [calculate_eval r a b c d hA hB hC hD]
    rw [if_pos ?_]
    rcases hneg with hba | hdc
    · have h0 : (b : Int) - (a : Int) < 0 := by omega
      exact Or.inl (div_neg_of_neg_of_pos (by exact_mod_cast h0) (by norm_num))
    · have h0 : (d : Int) - (c : Int) < 0 := by omega
      exact Or.inr (div_neg_of_neg_of_pos (by exact_mod_cast h0) (by norm_num))
  · intro r hmiss
    cases h1 : parse_time_from_string r.AM_IN <;>
      cases h2 : parse_time_from_string r.AM_OUT <;>
        cases h3 : parse_time_from_string r.PM_IN <;>
          cases h4 : parse_time_from_string r.PM_OUT <;>
            simp_all [calculate_hours_worked]
  · norm_num [REQUIRED_HOURS]
  · have hne : ¬((8 : Rat) = 0) := by norm_num
    have hge : (8 : Rat) ≥ (REQUIRED_HOURS : Rat) := by norm_num [REQUIRED_HOURS]
    simp only [pm_out_summary, hcalc8]
    rw [if_neg hne]
    unfold hours_block
    rw [hfmt, if_pos hge]
    rfl

/-- C6 witness: concrete instances of the universally quantified parts —
the 8:00 AM / 12:00 PM / 1:00 PM / 5:00 PM record computes the rounded
8-hour total, an out-before-in record computes `None`, and a half-day
record (unparseable `"N/A"` slots) computes `None`. -/
theorem calculate_hours_worked_spec_witness :
    calculate_hours_worked ⟨"8:00 AM", "12:00 PM", "1:00 PM", "5:00 PM"⟩
      = some (round2 (((((43200 : Int) - 28800) + ((61200 : Int) - 46800) : Int) : Rat) / 3600))
    ∧ calculate_hours_worked ⟨"8:00 AM", "7:00 AM", "1:00 PM", "5:00 PM"⟩ = none
    ∧ calculate_hours_worked ⟨"8:00 AM", "12:00 PM", "N/A", "N/A"⟩ = none :=
  ⟨calculate_hours_worked_spec.1 ⟨"8:00 AM", "12:00 PM", "1:00 PM", "5:00 PM"⟩
      28800 43200 46800 61200 (by decide) (by decide) (by decide) (by decide)
      (by omega) (by omega),
   calculate_hours_worked_spec.2.1 ⟨"8:00 AM", "7:00 AM", "1:00 PM", "5:00 PM"⟩
      28800 25200 46800 61200 (by decide) (by decide) (by decide) (by decide)
      (Or.inl (by omega)),
   calculate_hours_worked_spec.2.2.1 ⟨"8:00 AM", "12:00 PM", "N/A", "N/A"⟩
      (Or.inr (Or.inr (Or.inl (by decide))))⟩

/-- C10: a computed total of exactly zero hours is reported as if the hours
were uncomputable — for a record whose four slots parse with
`AM_OUT = AM_IN` and `PM_OUT = PM_IN` the calculator returns `0.0`, which
fails the Python truthiness check, so `pm_out` replies
`"Complete DTR for today!"` with no total-hours or undertime line and
`status` omits the hours section entirely. -/
theorem zero_hours_reported_as_incomplete :
    ∀ (r : DTRRecord) (a c : Nat),
      parse_time_from_string r.AM_IN = some a →
      parse_time_from_string r.AM_OUT = some a →
      parse_time_from_string r.PM_IN = some c →
      parse_time_from_string r.PM_OUT = some c →
      calculate_hours_worked r = some 0
      ∧ pm_out_summary r = "\n\n**Complete DTR for today!**"
      ∧ status_hours_section r = "" := by
  intro r a c hA hB hC hD
  have hcalc : calculate_hours_worked r = some 0 := by
    rw [calculate_of_nonneg_spans r a a c c hA hB hC hD (le_refl a) (le_refl c)]
    rw [show (((((a : Int) - (a : Int)) + ((c : Int) - (c : Int)) : Int) : Rat) / 3600)
        = 0 by norm_num]
    unfold round2
    rw [show pyRound (0 * 100) = 0 by
      rw [pyRound_eq, Int.floor_eq_iff]
      constructor <;> norm_num]
    norm_num
  refine ⟨hcalc, ?_, ?_⟩
  · simp only [pm_out_summary, hcalc]
    rw [if_true]
  · simp only [status_hours_section, hcalc]
    rw [if_pos ⟨parse_some_ne_empty hA, parse_some_ne_empty hB,
      parse_some_ne_empty hC, parse_some_ne_empty hD⟩]
    rw [if_true]

/-- C10 witness: the record 8:00 AM / 8:00 AM / 1:00 PM / 1:00 PM computes
0.0 hours, and both replies omit the hours section. -/
theorem zero_hours_reported_as_incomplete_witness :
    calculate_hours_worked ⟨"8:00 AM", "8:00 AM", "1:00 PM", "1:00 PM"⟩ = some 0
    ∧ pm_out_summary ⟨"8:00 AM", "8:00 AM", "1:00 PM", "1:00 PM"⟩
      = "\n\n**Complete DTR for today!**"
    ∧ status_hours_section ⟨"8:00 AM", "8:00 AM", "1:00 PM", "1:00 PM"⟩ = "" :=
  zero_hours_reported_as_incomplete ⟨"8:00 AM", "8:00 AM", "1:00 PM", "1:00 PM"⟩
    28800 46800 (by decide) (by decide) (by decide) (by decide)

end DTR
